import Mathlib

/-!
Shallow embedding of the Prometheus operator charm
(`src/charm.py` and `lib/charms/prometheus_k8s/v0/prometheus_remote_write.py`)
together with theorems settling the specification claims about it.

Conventions of the embedding:
* Python strings are `String`, Python `None`-able strings are `Option String`.
* Python dicts are association lists in insertion order (`List (String × _)`);
  Python dicts preserve insertion order and assigning to an existing key keeps
  its position (`dictInsert`).
* Truthiness of an optional string (`if config.get(k):`) is `optTruthy`.
* A raised-and-caught exception path is an explicit branch; an exception that
  escapes the handler is modelled as `Option.none` at the top of the handler.
-/

/-- Truthiness of a Python optional string: `None` and `""` are falsy,
every other string is truthy. -/
def optTruthy (o : Option String) : Bool :=
  match o with
  | some s => !s.isEmpty
  | none => false

/-- First-match association-list lookup, the behaviour of `d[k]` / `d.get(k)`
on a Python dict modelled as an insertion-ordered list with unique keys. -/
def lookupAssoc (kvs : List (String × α)) (k : String) : Option α :=
  match kvs with
  | [] => none
  | (k', v) :: rest => if k' = k then some v else lookupAssoc rest k

/-- Python `d[k] = v` on an insertion-ordered dict: an existing key keeps its
position and gets the new value, a new key is appended at the end. -/
def dictInsert (k : String) (v : α) (kvs : List (String × α)) : List (String × α) :=
  match kvs with
  | [] => [(k, v)]
  | (k', v') :: rest => if k' = k then (k', v) :: rest else (k', v') :: dictInsert k v rest

/-- JSON insignificant whitespace. -/
def isJsonWs (c : Char) : Bool :=
  c = ' ' || c = '\t' || c = '\n' || c = '\r'

/-- Drop leading JSON whitespace. -/
def skipWs : List Char → List Char
  | [] => []
  | c :: rest => if isJsonWs c then skipWs rest else c :: rest

/-- JSON string escape sequences (`\uXXXX` is not modelled; see `jsonStrDict?`). -/
def readEsc (c : Char) : Option Char :=
  if c = '"' then some '"'
  else if c = '\\' then some '\\'
  else if c = '/' then some '/'
  else if c = 'n' then some '\n'
  else if c = 't' then some '\t'
  else if c = 'r' then some '\r'
  else if c = 'b' then some (Char.ofNat 8)
  else if c = 'f' then some (Char.ofNat 12)
  else none

/-- Read the body of a JSON string up to (and consuming) the closing quote;
returns the decoded string and the remaining input. -/
def readStr : List Char → Option (String × List Char)
  | [] => none
  | '"' :: rest => some ("", rest)
  | '\\' :: e :: rest =>
    match readEsc e, readStr rest with
    | some c, some (s, r) => some (String.mk (c :: s.data), r)
    | _, _ => none
  | c :: rest =>
    match readStr rest with
    | some (s, r) => some (String.mk (c :: s.data), r)
    | none => none

/-- Read the `"k": "v"` pairs of a JSON object of strings, positioned right
after the opening brace (or a separating comma); consumes the closing brace. -/
def readPairs : Nat → List Char → Option (List (String × String) × List Char)
  | 0, _ => none
  | fuel + 1, cs =>
    match skipWs cs with
    | '"' :: r0 =>
      match readStr r0 with
      | none => none
      | some (k, r1) =>
        match skipWs r1 with
        | ':' :: r2 =>
          match skipWs r2 with
          | '"' :: r3 =>
            match readStr r3 with
            | none => none
            | some (v, r4) =>
              match skipWs r4 with
              | ',' :: r5 =>
                match readPairs fuel r5 with
                | some (ps, r6) => some ((k, v) :: ps, r6)
                | none => none
              | '\x7d' :: r5 => some ([(k, v)], r5)
              | _ => none
          | _ => none
        | _ => none
    | _ => none

/-- Python `json.loads`, restricted to the only shape `_are_valid_labels`
accepts: a JSON object whose keys and values are all strings. Inputs that
`json.loads` parses into some other shape (arrays, numbers, nested objects,
non-string values) are reported as `none` here; on every such input the source
code also ends up rejecting the labels wholesale, so the observable outcome of
`_are_valid_labels` / `_external_labels` is unchanged. `\uXXXX` escapes are
not modelled. -/
def jsonStrDict? (s : String) : Option (List (String × String)) :=
  match skipWs s.data with
  | '\x7b' :: rest =>
    match skipWs rest with
    | '\x7d' :: r2 => if (skipWs r2).isEmpty then some [] else none
    | _ =>
      match readPairs (s.length + 1) rest with
      | some (ps, r2) => if (skipWs r2).isEmpty then some ps else none
      | none => none
  | _ => none

/-- Read the elements of a JSON array of strings, positioned right after the
opening bracket (or a separating comma); consumes the closing bracket. -/
def readStrElems : Nat → List Char → Option (List String × List Char)
  | 0, _ => none
  | fuel + 1, cs =>
    match skipWs cs with
    | '"' :: r0 =>
      match readStr r0 with
      | none => none
      | some (s, r1) =>
        match skipWs r1 with
        | ',' :: r2 =>
          match readStrElems fuel r2 with
          | some (xs, r3) => some (s :: xs, r3)
          | none => none
        | ']' :: r2 => some ([s], r2)
        | _ => none
    | _ => none

/-- Python `json.loads`, restricted to JSON arrays of strings — the payload
shape the alertmanager relation carries in `addrs`. Other JSON shapes are
reported as `none` (the modelled handler treats that as a raised exception);
no claim exercises the handler on a non-list-of-strings payload. -/
def jsonStringList? (s : String) : Option (List String) :=
  match skipWs s.data with
  | '[' :: rest =>
    match skipWs rest with
    | ']' :: r2 => if (skipWs r2).isEmpty then some [] else none
    | _ =>
      match readStrElems (s.length + 1) rest with
      | some (xs, r2) => if (skipWs r2).isEmpty then some xs else none
      | none => none
  | _ => none

/-- Whitespace stripped by Python `int(str)` around the digits. -/
def isPyIntWs (c : Char) : Bool :=
  c = ' ' || c = '\t' || c = '\n' || c = '\r' || c = '\x0b' || c = '\x0c'

/-- Drop leading Python-int whitespace. -/
def dropPyWs : List Char → List Char
  | [] => []
  | c :: rest => if isPyIntWs c then dropPyWs rest else c :: rest

/-- Strip Python-int whitespace from both ends. -/
def stripPyWs (cs : List Char) : List Char :=
  ((dropPyWs cs.reverse).reverse |> dropPyWs)

/-- Digit run of Python `int(str)`: ASCII digits with single underscores
allowed strictly between digits. The first character was already checked to be
a digit by the caller. -/
def pyDigitsAcc (acc : Nat) : List Char → Option Nat
  | [] => some acc
  | c :: rest =>
    if c.isDigit then pyDigitsAcc (acc * 10 + (c.toNat - 48)) rest
    else if c = '_' then
      match rest with
      | [] => none
      | d :: rest2 =>
        if d.isDigit then pyDigitsAcc (acc * 10 + (d.toNat - 48)) rest2 else none
    else none

/-- Python `int(str)`: optional surrounding whitespace, optional sign, then a
nonempty ASCII digit run (underscore separators allowed between digits).
`none` models a raised `ValueError`. Non-ASCII unicode digits, which Python
would also accept, are not modelled. -/
def pyIntOfString? (s : String) : Option Int :=
  let cs := stripPyWs s.data
  let signed : Int × List Char :=
    match cs with
    | '+' :: r => (1, r)
    | '-' :: r => (-1, r)
    | r => (1, r)
  match signed.2 with
  | [] => none
  | c :: _ =>
    if c.isDigit then
      match pyDigitsAcc 0 signed.2 with
      | some n => some (signed.1 * (n : Int))
      | none => none
    else none

/-- ASCII lowercasing, the fragment of Python `str.lower` the charm exercises
(the configured log levels are ASCII). -/
def pyLower (s : String) : String := String.mk (s.data.map Char.toLower)

/-- Python `s.startswith(pre)`, compared on characters. -/
def pyStartsWith (s pre : String) : Bool :=
  pre.data.isPrefixOf s.data

/-- Python value universe for the configuration document built by
`_prometheus_config` (src/charm.py:346-381): strings, booleans, lists and
insertion-ordered dicts. -/
inductive PyVal where
  | str (s : String)
  | bool (b : Bool)
  | list (xs : List PyVal)
  | dict (kvs : List (String × PyVal))

/-- Insert a rendered key/value pair into a key-sorted rendered list. -/
def insertByKey (x : String × String) : List (String × String) → List (String × String)
  | [] => [x]
  | y :: ys => if x.1 < y.1 then x :: y :: ys else y :: insertByKey x ys

/-- Sort rendered key/value pairs by key (`yaml.dump` sorts dict keys). -/
def sortByKey : List (String × String) → List (String × String)
  | [] => []
  | x :: xs => insertByKey x (sortByKey xs)

mutual

/-- Deterministic stand-in for the serialization performed by `yaml.dump`
(src/charm.py:381): a total, injective-on-our-documents rendering with dict
keys sorted, as PyYAML does by default. The claims below depend only on this
being a function of the document, never on the concrete byte format. -/
def yamlOf : PyVal → String
  | .str s => "\"" ++ s ++ "\""
  | .bool b => if b then "true" else "false"
  | .list xs => "[" ++ ", ".intercalate (yamlElems xs) ++ "]"
  | .dict kvs =>
    "\x7b" ++ ", ".intercalate
      ((sortByKey (yamlPairs kvs)).map (fun p => "\"" ++ p.1 ++ "\": " ++ p.2)) ++ "\x7d"

/-- Render a list of document values. -/
def yamlElems : List PyVal → List String
  | [] => []
  | x :: xs => yamlOf x :: yamlElems xs

/-- Render dict entries to (key, rendered value) pairs, before sorting. -/
def yamlPairs : List (String × PyVal) → List (String × String)
  | [] => []
  | (k, v) :: kvs => (k, yamlOf v) :: yamlPairs kvs

end

/-- Trailing newline that `yaml.dump` appends to a document. -/
def yamlDump (v : PyVal) : String := yamlOf v ++ "\n"

/-- A single quote character, for rendering Python `repr`. -/
def sglq : String := String.mk [Char.ofNat 39]

mutual

/-- Python `str`/`repr` of a dict value (single-quoted strings, `True`/`False`,
insertion order) — what `str(x)` at src/charm.py:85 would produce if `x` were
the in-memory dict rather than the YAML string. -/
def pyRepr : PyVal → String
  | .str s => sglq ++ s ++ sglq
  | .bool b => if b then "True" else "False"
  | .list xs => "[" ++ ", ".intercalate (pyReprElems xs) ++ "]"
  | .dict kvs =>
    "\x7b" ++ ", ".intercalate
      ((pyReprPairs kvs).map (fun p => sglq ++ p.1 ++ sglq ++ ": " ++ p.2)) ++ "\x7d"

/-- Render a list of values with `repr`. -/
def pyReprElems : List PyVal → List String
  | [] => []
  | x :: xs => pyRepr x :: pyReprElems xs

/-- Render dict entries with `repr`, in insertion order. -/
def pyReprPairs : List (String × PyVal) → List (String × String)
  | [] => []
  | (k, v) :: kvs => (k, pyRepr v) :: pyReprPairs kvs

end

/-- The dynamically-typed value `_prometheus_config` evaluates to: either the
YAML string actually produced at src/charm.py:381, or — the shape the spec
warns about — an in-memory dict. The source only ever produces the string
alternative; keeping both shapes lets the change-detection claim distinguish
`str(x)` from the pushed payload. -/
inductive PyObj where
  | ofString (s : String)
  | ofDict (v : PyVal)

/-- Python `str(x)` on the result of `_prometheus_config` (src/charm.py:85). -/
def pyObjStr : PyObj → String
  | .ofString s => s
  | .ofDict v => pyRepr v

/-- The payload `container.push` (src/charm.py:88) writes: pushing a `str`
writes exactly that string; pushing a dict is a type error (`none`). -/
def pushString? : PyObj → Option String
  | .ofString s => some s
  | .ofDict _ => none

/-- UTF-8 encoding of one scalar value. -/
def utf8Char (c : Char) : List Nat :=
  let n := c.toNat
  if n < 128 then [n]
  else if n < 2048 then [192 + n / 64, 128 + n % 64]
  else if n < 65536 then [224 + n / 4096, 128 + (n / 64) % 64, 128 + n % 64]
  else [240 + n / 262144, 128 + (n / 4096) % 64, 128 + (n / 64) % 64, 128 + n % 64]

/-- Python `s.encode("utf-8")` — the bytes of a string. -/
def utf8 (s : String) : List Nat := (s.data.map utf8Char).flatten

/-- Stand-in for `hashlib.md5(b).hexdigest()` at src/charm.py:85. Equal inputs
give equal digests, which is the only property of MD5 any claim below uses
(no claim relies on collisions or on the digest's width), so the digest is
modelled as the input itself rather than a 128-bit compression of it. -/
def md5Hex (s : String) : String := s

/-- The charm's `self.model.config` snapshot: the administrator options read
by src/charm.py. String options absent from the model are `none`;
`tsdb-wal-compression` is a boolean option and `port` an integer option with
a default, so they are always present. -/
structure Config where
  logLevel : Option String
  tsdbWalCompression : Bool
  tsdbRetentionTime : Option String
  externalLabels : Option String
  scrapeInterval : Option String
  scrapeTimeout : Option String
  evaluationInterval : Option String
  port : Nat
deriving DecidableEq

/-- `_is_valid_timespec` (src/charm.py:222-250): nonempty, last character a
unit in y/w/d/h/m/s, the rest parses as a Python int, and that int is
positive. -/
def _is_valid_timespec (timeval : String) : Bool :=
  if timeval.isEmpty then false
  else
    let time := String.mk timeval.data.dropLast
    let unit := timeval.data.getLastD ' '
    if !(['y', 'w', 'd', 'h', 'm', 's'].contains unit) then false
    else
      match pyIntOfString? time with
      | none => false
      | some n => decide (0 < n)

/-- The allowed log levels of `_cli_args` (src/charm.py:189). -/
def allowed_log_levels : List String := ["debug", "info", "warn", "error", "fatal"]

/-- The log level `_cli_args` settles on (src/charm.py:188-203): the lowercased
configured value when one is configured, else `info`; coerced to `debug` when
not in the allowed list. -/
def cliLogLevel (c : Config) : String :=
  let ll := if optTruthy c.logLevel then pyLower (c.logLevel.getD "") else "info"
  if !(allowed_log_levels.contains ll) then "debug" else ll

/-- `_cli_args` (src/charm.py:173-220). -/
def _cli_args (c : Config) : List String :=
  ["--config.file=/etc/prometheus/prometheus.yml",
   "--storage.tsdb.path=/var/lib/prometheus",
   "--web.enable-lifecycle",
   "--web.console.templates=/usr/share/prometheus/consoles",
   "--web.console.libraries=/usr/share/prometheus/console_libraries"]
  ++ ["--log.level=" ++ cliLogLevel c]
  ++ (if c.tsdbWalCompression then ["--storage.tsdb.wal-compression"] else [])
  ++ (match c.tsdbRetentionTime with
      | some v =>
        if !v.isEmpty && _is_valid_timespec v then
          ["--storage.tsdb.retention.time=" ++ v]
        else []
      | none => [])

/-- `_command` (src/charm.py:161-171): the space-joined launch command. -/
def _command (c : Config) : String :=
  " ".intercalate ("/bin/prometheus" :: _cli_args c)

/-- `_are_valid_labels` (src/charm.py:252-280): falsy input, unparsable JSON,
non-dict JSON, and non-string keys or values all yield `False`. With the
restricted `jsonStrDict?` these cases collapse into parse failure. -/
def _are_valid_labels (jsonData : String) : Bool :=
  if jsonData.isEmpty then false
  else (jsonStrDict? jsonData).isSome

/-- Python dict built from JSON object pairs: duplicate keys collapse,
last value wins, first position kept. -/
def pyDictOfPairs (ps : List (String × String)) : List (String × String) :=
  ps.foldl (fun d kv => dictInsert kv.1 kv.2 d) []

/-- `_external_labels` (src/charm.py:282-296): the parsed label dict when the
option is truthy and valid, otherwise the empty dict. -/
def _external_labels (c : Config) : List (String × String) :=
  match c.externalLabels with
  | some s =>
    if !s.isEmpty && _are_valid_labels s then pyDictOfPairs ((jsonStrDict? s).getD [])
    else []
  | none => []

/-- One conditional entry of the global section (src/charm.py:311-324): the
key is emitted iff the option is truthy and `_is_valid_timespec` accepts it. -/
def timespecEntry (key : String) (v : Option String) : List (String × PyVal) :=
  match v with
  | some s => if !s.isEmpty && _is_valid_timespec s then [(key, PyVal.str s)] else []
  | none => []

/-- `_prometheus_global_config` (src/charm.py:298-326), in insertion order:
`external_labels` (if any), then the three validated time-spans. -/
def _prometheus_global_config (c : Config) : PyVal :=
  let labels := _external_labels c
  PyVal.dict
    ((if labels.isEmpty then []
      else [("external_labels", PyVal.dict (labels.map (fun kv => (kv.1, PyVal.str kv.2))))])
     ++ timespecEntry "scrape_interval" c.scrapeInterval
     ++ timespecEntry "scrape_timeout" c.scrapeTimeout
     ++ timespecEntry "evaluation_interval" c.evaluationInterval)

/-- `_alerting_config` (src/charm.py:328-344): `none` models the falsy `""`
returned when no alertmanagers are stored; otherwise one `alertmanagers`
entry whose static config targets are the stored list. -/
def _alerting_config (ams : List String) : Option PyVal :=
  if ams.length < 1 then none
  else
    some (PyVal.dict
      [("alertmanagers",
        PyVal.list
          [PyVal.dict
            [("static_configs",
              PyVal.list [PyVal.dict [("targets", PyVal.list (ams.map PyVal.str))]])]])])

/-- The self-monitoring scrape job `default_config` (src/charm.py:364-372). -/
def default_config (c : Config) : PyVal :=
  PyVal.dict
    [("job_name", PyVal.str "prometheus"),
     ("scrape_interval", PyVal.str "5s"),
     ("scrape_timeout", PyVal.str "5s"),
     ("metrics_path", PyVal.str "/metrics"),
     ("honor_timestamps", PyVal.bool true),
     ("scheme", PyVal.str "http"),
     ("static_configs",
      PyVal.list [PyVal.dict [("targets", PyVal.list [PyVal.str ("localhost:" ++ toString c.port)])]])]

/-- The `scrape_config` dict assembled by `_prometheus_config`
(src/charm.py:346-379) before serialization: key insertion order is `global`,
`scrape_configs`, then (conditionally) `alerting`; the scrape job list is the
self job followed, when the provider is ready, by the peer jobs in snapshot
order. -/
def prometheusScrapeConfig (c : Config) (ams : List String) (providerReady : Bool)
    (jobs : List PyVal) : PyVal :=
  PyVal.dict
    ([("global", _prometheus_global_config c),
      ("scrape_configs",
       PyVal.list (default_config c :: (if providerReady then jobs else [])))]
     ++ (match _alerting_config ams with
         | some a => [("alerting", a)]
         | none => []))

/-- `_prometheus_config` (src/charm.py:346-381): the YAML serialization of the
assembled document, returned as a Python string. -/
def _prometheus_config (c : Config) (ams : List String) (providerReady : Bool)
    (jobs : List PyVal) : PyObj :=
  PyObj.ofString (yamlDump (prometheusScrapeConfig c ams providerReady jobs))

/-- One pebble service entry, the value of `layer["services"]["prometheus"]`
built by `_prometheus_layer` (src/charm.py:383-404). -/
structure ServiceSpec where
  override : String
  summary : String
  command : String
  startup : String
deriving DecidableEq

/-- The `prometheus` service of the layer `_prometheus_layer` returns. -/
def prometheusService (c : Config) : ServiceSpec :=
  { override := "replace"
    summary := "prometheus daemon"
    command := _command c
    startup := "enabled" }

/-- The mutable state one `_configure` pass (src/charm.py:71-110) reads and
writes: the `StoredState` fields it touches, plus the observable state of the
workload container. `pebbleReady` is whether the pebble control channel is
established (when it is not, `container.push` and `container.get_plan` raise
`ConnectionError`). `planServices` is the `prometheus` entry of the current
pebble plan — the only service this charm's container ever carries, since the
charm is the container's sole layer author. -/
structure World where
  alertmanagers : List String
  providerReady : Bool
  prometheusConfigHash : Option String
  pebbleReady : Bool
  planServices : Option ServiceSpec
  serviceRunning : Bool
deriving DecidableEq

/-- Count of the externally observable container operations one pass issues. -/
structure Effects where
  pushes : Nat
  layerAdds : Nat
  stops : Nat
  starts : Nat
deriving DecidableEq

/-- No observable container operation. -/
def Effects.zero : Effects := ⟨0, 0, 0, 0⟩

/-- The layer/plan half of `_configure` (src/charm.py:96-105): raises
(`none`) when pebble is unreachable, since `container.get_plan` needs the
control channel; otherwise adds the layer and stop/starts the service exactly
when the plan's services differ from the computed layer's services. -/
def servicePhase (c : Config) (pushes : Nat) (w : World) : Option (World × Effects) :=
  if w.pebbleReady then
    if w.planServices = some (prometheusService c) then
      some (w, ⟨pushes, 0, 0, 0⟩)
    else
      some ({ w with planServices := some (prometheusService c), serviceRunning := true },
            ⟨pushes, 1, if w.serviceRunning then 1 else 0, 1⟩)
  else none

/-- `_configure` (src/charm.py:71-110): hash the stringified configuration,
push it when the stored hash differs — catching `ConnectionError` as an early
plain return — then reconcile the pebble layer and service. `none` models an
exception escaping the pass. -/
def configure (c : Config) (jobs : List PyVal) (w : World) : Option (World × Effects) :=
  let obj := _prometheus_config c w.alertmanagers w.providerReady jobs
  let hash := md5Hex (pyObjStr obj)
  if w.prometheusConfigHash = some hash then
    servicePhase c 0 w
  else
    if w.pebbleReady then
      match pushString? obj with
      | some _ => servicePhase c 1 { w with prometheusConfigHash := some hash }
      | none => none
    else
      some (w, Effects.zero)

/-- The `version` property (src/charm.py:406-418) over the probe outcome:
`build_info()` is external transport, modelled from the spec as an optional
structured payload; a falsy payload (unreachable endpoint or empty dict)
yields `None`, otherwise the payload's `version` field via `.get`. -/
def version (buildInfo : Option (List (String × String))) : Option String :=
  match buildInfo with
  | some info => if !info.isEmpty then lookupAssoc info "version" else none
  | none => none

/-- The `provider_ready` property (src/charm.py:420-437): latch the stored
flag when it is still unset and the probe reports a truthy version, then
return the stored flag. The pair is (returned value, stored flag after the
call); the two are always equal since the property returns the stored field. -/
def provider_ready (st : Bool) (buildInfo : Option (List (String × String))) : Bool × Bool :=
  let st' := if !st && optTruthy (version buildInfo) then true else st
  (st', st')

/-- Stored `provider_ready` flag after a sequence of property reads with the
given probe outcomes. -/
def run_probes (st : Bool) (ps : List (Option (List (String × String)))) : Bool :=
  ps.foldl (fun s p => (provider_ready s p).2) st

/-- The `port: Union[str, int]` argument of `set_endpoint`. -/
inductive PyPort where
  | ofStr (s : String)
  | ofInt (n : Int)

/-- Python `str(port)` (prometheus_remote_write.py:335). -/
def portStr : PyPort → String
  | .ofStr s => s
  | .ofInt n => toString n

/-- The endpoint URL `set_endpoint` builds
(prometheus_remote_write.py:305-335): a falsy `address` falls back to the
binding's address, a truthy path is normalized to start with `/`, a falsy
path stays empty. -/
def set_endpoint_url (schema : String) (address : Option String) (bindAddress : String)
    (port : PyPort) (path : String) : String :=
  let addr :=
    match address with
    | some a => if a.isEmpty then bindAddress else a
    | none => bindAddress
  let p :=
    if !path.isEmpty then (if pyStartsWith path "/" then path else "/" ++ path)
    else ""
  schema ++ "://" ++ addr ++ ":" ++ portStr port ++ p

/-- `set_endpoint` (prometheus_remote_write.py:305-337): write the built URL
under `remote_write_endpoint` into this unit's data bag of every relation on
the remote-write relation name. -/
def set_endpoint (schema : String) (address : Option String) (bindAddress : String)
    (port : PyPort) (path : String) (relations : List (List (String × String))) :
    List (List (String × String)) :=
  relations.map (dictInsert "remote_write_endpoint" (set_endpoint_url schema address bindAddress port path))

/-- Result of one relation event handler: the state afterwards, the container
operations performed, and whether `_configure` ran. -/
structure HandlerOut where
  world : World
  effects : Effects
  ranConfigure : Bool
deriving DecidableEq

/-- `_on_alertmanager_changed` (src/charm.py:132-147): non-leaders return
immediately; the leader JSON-decodes the `addrs` field (default `"[]"`),
stores it, and runs `_configure`. `none` models an exception escaping the
handler. -/
def on_alertmanager_changed (c : Config) (jobs : List PyVal) (isLeader : Bool)
    (addrsRaw : Option String) (w : World) : Option HandlerOut :=
  if !isLeader then some ⟨w, Effects.zero, false⟩
  else
    match jsonStringList? (addrsRaw.getD "[]") with
    | none => none
    | some addrs =>
      match configure c jobs { w with alertmanagers := addrs } with
      | some (w2, e) => some ⟨w2, e, true⟩
      | none => none

/-- `_on_alertmanager_broken` (src/charm.py:149-159): non-leaders return
immediately; the leader clears the stored alertmanagers and runs
`_configure`. -/
def on_alertmanager_broken (c : Config) (jobs : List PyVal) (isLeader : Bool)
    (w : World) : Option HandlerOut :=
  if !isLeader then some ⟨w, Effects.zero, false⟩
  else
    match configure c jobs { w with alertmanagers := [] } with
    | some (w2, e) => some ⟨w2, e, true⟩
    | none => none

/-- Key lookup in a document dict (the claim-side view of `doc["k"]`). -/
def dictGet? (v : PyVal) (k : String) : Option PyVal :=
  match v with
  | .dict kvs => lookupAssoc kvs k
  | _ => none

/-- The keys of a document dict, in insertion order. -/
def pyKeys : PyVal → List String
  | .dict kvs => kvs.map Prod.fst
  | _ => []

/-- Whether a command-line argument starts with the given flag text (compared
on characters, so it is stable under appending a flag value). -/
def hasFlagText (flagText a : String) : Bool :=
  a.data.take flagText.data.length == flagText.data

/-- Modelled from the spec: the path normalization the provider contract
promises — `path normalized to start with / (empty path ⇒ empty, not /)`.
Stated separately from `set_endpoint_url` so the code can be compared
against it. -/
def normPathSpec (path : String) : String :=
  if path = "" then ""
  else if pyStartsWith path "/" then path else "/" ++ path

/-- A concrete operator configuration used to instantiate theorems. -/
def sampleConfig : Config :=
  { logLevel := some "INFO"
    tsdbWalCompression := false
    tsdbRetentionTime := some "15d"
    externalLabels := none
    scrapeInterval := none
    scrapeTimeout := none
    evaluationInterval := none
    port := 9090 }

/-- A configuration whose retention time-span has an invalid unit. -/
def badRetentionConfig : Config :=
  { sampleConfig with tsdbRetentionTime := some "10x" }

/-- A fresh unit whose pebble channel is established. -/
def sampleWorldReady : World :=
  { alertmanagers := []
    providerReady := false
    prometheusConfigHash := none
    pebbleReady := true
    planServices := none
    serviceRunning := false }

/-- A fresh unit whose pebble channel is not yet established. -/
def sampleWorldOffline : World :=
  { sampleWorldReady with pebbleReady := false }

/-- A flag followed by an arbitrary value matches its own flag text. -/
theorem hasFlagText_append_self (flagText rest : String) :
    hasFlagText flagText (flagText ++ rest) = true := by
  unfold hasFlagText
  rw [String.data_append, List.take_append_of_le_length (le_refl _), List.take_length]
  simp

/-- An argument built from a shorter alien flag text never matches: its prefix
of the flag-text length already differs. -/
theorem hasFlagText_short_ne (flagText pre rest : String)
    (hlen : pre.data.length ≤ flagText.data.length)
    (hne : pre.data ≠ flagText.data.take pre.data.length) :
    hasFlagText flagText (pre ++ rest) = false := by
  unfold hasFlagText
  rw [String.data_append, beq_eq_false_iff_ne]
  intro heq
  apply hne
  have h2 := congrArg (List.take pre.data.length) heq
  rwa [List.take_take, min_eq_left hlen, List.take_append_of_le_length (le_refl _),
    List.take_length] at h2

/-- An argument built from a longer alien flag text never matches. -/
theorem hasFlagText_long_ne (flagText pre rest : String)
    (hlen : flagText.data.length ≤ pre.data.length)
    (hne : pre.data.take flagText.data.length ≠ flagText.data) :
    hasFlagText flagText (pre ++ rest) = false := by
  unfold hasFlagText
  rw [String.data_append, List.take_append_of_le_length hlen, beq_eq_false_iff_ne]
  exact hne

/-- Writing a key into a dict makes it readable back. -/
theorem lookupAssoc_dictInsert (k : String) (v : α) (d : List (String × α)) :
    lookupAssoc (dictInsert k v d) k = some v := by
  induction d with
  | nil => simp [dictInsert, lookupAssoc]
  | cons hd tl ih =>
    obtain ⟨k', v'⟩ := hd
    by_cases h : k' = k
    · simp [dictInsert, lookupAssoc, h]
    · simp [dictInsert, lookupAssoc, h, ih]

/-- A latched readiness flag survives any further sequence of probes. -/
theorem run_probes_of_true (qs : List (Option (List (String × String)))) :
    run_probes true qs = true := by
  induction qs with
  | nil => rfl
  | cons q tl ih =>
    show run_probes (provider_ready true q).2 tl = true
    simpa [provider_ready] using ih

/-- `run_probes` splits over concatenation of probe sequences. -/
theorem run_probes_append (st : Bool) (ps qs : List (Option (List (String × String)))) :
    run_probes st (ps ++ qs) = run_probes (run_probes st ps) qs := by
  simp [run_probes, List.foldl_append]

/-- C1: the change-detection fingerprint in `_configure` is computed over the
very bytes pushed to the workload container: `_prometheus_config` returns the
serialized YAML string, so `str(...)` at src/charm.py:85 is the identity on it
and the UTF-8 bytes hashed equal the UTF-8 bytes `container.push` writes. -/
theorem hash_input_equals_pushed_bytes (c : Config) (ams : List String) (pr : Bool)
    (jobs : List PyVal) :
    (pushString? (_prometheus_config c ams pr jobs)).map utf8 =
      some (utf8 (pyObjStr (_prometheus_config c ams pr jobs))) := rfl

/-- C10: on a non-leader unit both alertmanager handlers return immediately,
for every event payload: the state (stored alertmanagers included) is
unchanged, no container operation happens, and `_configure` does not run. -/
theorem non_leader_handlers_frame (c : Config) (jobs : List PyVal)
    (addrsRaw : Option String) (w : World) :
    on_alertmanager_changed c jobs false addrsRaw w = some ⟨w, Effects.zero, false⟩ ∧
    on_alertmanager_broken c jobs false w = some ⟨w, Effects.zero, false⟩ :=
  ⟨rfl, rfl⟩

/-- C4: the synthesized document has no `alerting` key at all when the stored
alertmanager list is empty, and otherwise carries exactly one `alertmanagers`
entry whose static-config targets are exactly the stored endpoint list. -/
theorem alerting_section_presence (c : Config) (ams : List String) (pr : Bool)
    (jobs : List PyVal) :
    dictGet? (prometheusScrapeConfig c ams pr jobs) "alerting" =
      (if ams = [] then none
       else
         some (PyVal.dict
           [("alertmanagers",
             PyVal.list
               [PyVal.dict
                 [("static_configs",
                   PyVal.list [PyVal.dict [("targets", PyVal.list (ams.map PyVal.str))]])]])])) ∧
    pyKeys (prometheusScrapeConfig c ams pr jobs) =
      ["global", "scrape_configs"] ++ (if ams = [] then [] else ["alerting"]) := by
  cases ams with
  | nil => simp [prometheusScrapeConfig, _alerting_config, dictGet?, lookupAssoc, pyKeys]
  | cons a tl => simp [prometheusScrapeConfig, _alerting_config, dictGet?, lookupAssoc, pyKeys]

/-- C5: the document's `scrape_configs` list is the fixed self-monitoring job
followed by the peer-supplied jobs in snapshot order (the peer jobs are
appended exactly when the provider is ready), and the self job has the exact
pinned fields targeting `localhost:<port>`. -/
theorem self_scrape_job_first (c : Config) (ams : List String) (pr : Bool)
    (jobs : List PyVal) :
    dictGet? (prometheusScrapeConfig c ams pr jobs) "scrape_configs" =
      some (PyVal.list (default_config c :: (if pr then jobs else []))) ∧
    default_config c =
      PyVal.dict
        [("job_name", PyVal.str "prometheus"),
         ("scrape_interval", PyVal.str "5s"),
         ("scrape_timeout", PyVal.str "5s"),
         ("metrics_path", PyVal.str "/metrics"),
         ("honor_timestamps", PyVal.bool true),
         ("scheme", PyVal.str "http"),
         ("static_configs",
          PyVal.list
            [PyVal.dict
              [("targets", PyVal.list [PyVal.str ("localhost:" ++ toString c.port)])]])] := by
  refine ⟨?_, rfl⟩
  cases h : _alerting_config ams with
  | none => simp [prometheusScrapeConfig, dictGet?, lookupAssoc, h]
  | some a => simp [prometheusScrapeConfig, dictGet?, lookupAssoc, h]

/-- C8: the readiness latch is monotonic — once some sequence of
`provider_ready` reads has left the stored flag true, any further sequence of
probe outcomes (failures included) leaves it true, and every further read
returns true. -/
theorem readiness_latch_monotonic (st : Bool)
    (ps qs : List (Option (List (String × String))))
    (h : run_probes st ps = true) :
    run_probes st (ps ++ qs) = true ∧
    ∀ b, (provider_ready (run_probes st (ps ++ qs)) b).1 = true := by
  have h2 : run_probes st (ps ++ qs) = true := by
    rw [run_probes_append, h]
    exact run_probes_of_true qs
  refine ⟨h2, fun b => ?_⟩
  rw [h2]
  simp [provider_ready]

/-- Witness for C8 at a concrete probe history: one successful probe latches
the flag, and it survives a failed probe and an empty-payload probe. -/
theorem readiness_latch_monotonic_witness :
    run_probes false [some [("version", "2.28.1")]] = true ∧
    (run_probes false ([some [("version", "2.28.1")]] ++ [none, some []]) = true ∧
     ∀ b, (provider_ready
        (run_probes false ([some [("version", "2.28.1")]] ++ [none, some []])) b).1 = true) :=
  ⟨rfl, readiness_latch_monotonic false [some [("version", "2.28.1")]] [none, some []] rfl⟩

/-- C9: `set_endpoint` publishes, into every relation's data bag, the URL
`{schema}://{address}:{port}{path}` with the configured (or falling back to
the binding's) address and with the path component normalized exactly as the
spec states: empty stays empty, a nonempty path gains a leading `/` iff it
lacks one. -/
theorem set_endpoint_publishes_url (schema : String) (address : Option String)
    (bindAddress : String) (port : PyPort) (path : String) :
    set_endpoint_url schema address bindAddress port path =
      schema ++ "://" ++
        (match address with
         | some a => if a.isEmpty then bindAddress else a
         | none => bindAddress) ++ ":" ++ portStr port ++ normPathSpec path ∧
    (path = "" → normPathSpec path = "") ∧
    (path ≠ "" → pyStartsWith path "/" = false → normPathSpec path = "/" ++ path) ∧
    (path ≠ "" → pyStartsWith path "/" = true → normPathSpec path = path) ∧
    ∀ rels bag, bag ∈ set_endpoint schema address bindAddress port path rels →
      lookupAssoc bag "remote_write_endpoint" =
        some (set_endpoint_url schema address bindAddress port path) := by
  refine ⟨?_, ?_, ?_, ?_, ?_⟩
  · unfold set_endpoint_url normPathSpec
    by_cases hp : path = ""
    · subst hp
      have h0 : ("" : String).isEmpty = true := rfl
      simp [h0]
    · have he : path.isEmpty = false := by
        cases hx : path.isEmpty
        · rfl
        · exact absurd ((String.isEmpty_iff path).mp hx) hp
      simp [hp, he]
  · intro hp
    simp [normPathSpec, hp]
  · intro hp hs
    simp [normPathSpec, hp, hs]
  · intro hp hs
    simp [normPathSpec, hp, hs]
  · intro rels bag hmem
    unfold set_endpoint at hmem
    obtain ⟨d, _, rfl⟩ := List.mem_map.mp hmem
    exact lookupAssoc_dictInsert _ _ d

/-- Witness for C9 at concrete inputs: default port and path against the pod
address, with the path already carrying its leading slash. -/
theorem set_endpoint_publishes_url_witness :
    set_endpoint_url "http" none "10.1.2.3" (PyPort.ofInt 9090) "/api/v1/write" =
      "http" ++ "://" ++ "10.1.2.3" ++ ":" ++ portStr (PyPort.ofInt 9090) ++
        normPathSpec "/api/v1/write" ∧
    ("/api/v1/write" : String) ≠ "" ∧
    pyStartsWith "/api/v1/write" "/" = true ∧
    normPathSpec "/api/v1/write" = "/api/v1/write" ∧
    lookupAssoc (dictInsert "remote_write_endpoint"
        (set_endpoint_url "http" none "10.1.2.3" (PyPort.ofInt 9090) "/api/v1/write") [])
        "remote_write_endpoint" =
      some (set_endpoint_url "http" none "10.1.2.3" (PyPort.ofInt 9090) "/api/v1/write") :=
  ⟨(set_endpoint_publishes_url "http" none "10.1.2.3" (PyPort.ofInt 9090) "/api/v1/write").1,
   by decide,
   by decide,
   (set_endpoint_publishes_url "http" none "10.1.2.3" (PyPort.ofInt 9090)
      "/api/v1/write").2.2.2.1 (by decide) (by decide),
   (set_endpoint_publishes_url "http" none "10.1.2.3" (PyPort.ofInt 9090)
      "/api/v1/write").2.2.2.2
     [[]] _ (List.mem_map.mpr ⟨[], List.mem_singleton.mpr rfl, rfl⟩)⟩

/-- C6: `_is_valid_timespec` accepts `10s`, `2h`, `1y` and rejects (returning
`False`, not raising) `0s`, `-5m`, `10x` and the empty string; and a retention
value it rejects is simply omitted — no `--storage.tsdb.retention.time` flag
appears on the command line, and `_cli_args` still produces a result. -/
theorem timespec_validation :
    _is_valid_timespec "10s" = true ∧ _is_valid_timespec "2h" = true ∧
    _is_valid_timespec "1y" = true ∧ _is_valid_timespec "0s" = false ∧
    _is_valid_timespec "-5m" = false ∧ _is_valid_timespec "10x" = false ∧
    _is_valid_timespec "" = false ∧
    ∀ (c : Config) (v : String), c.tsdbRetentionTime = some v →
      _is_valid_timespec v = false →
      (_cli_args c).filter (hasFlagText "--storage.tsdb.retention.time=") = [] := by
  refine ⟨by decide, by decide, by decide, by decide, by decide, by decide, by decide, ?_⟩
  intro c v hv hbad
  have hll := hasFlagText_short_ne "--storage.tsdb.retention.time=" "--log.level="
    (cliLogLevel c) (by decide) (by decide)
  have hwal : hasFlagText "--storage.tsdb.retention.time="
      "--storage.tsdb.wal-compression" = false := by decide
  unfold _cli_args
  cases hw : c.tsdbWalCompression <;>
    simp [hv, hbad, List.filter_append, hll, hwal] <;> decide

/-- Witness for C6 at a concrete configuration: retention `10x` is rejected
and the retention flag is absent from the produced command line. -/
theorem timespec_validation_witness :
    badRetentionConfig.tsdbRetentionTime = some "10x" ∧
    _is_valid_timespec "10x" = false ∧
    (_cli_args badRetentionConfig).filter
      (hasFlagText "--storage.tsdb.retention.time=") = [] :=
  ⟨rfl, by decide,
   timespec_validation.2.2.2.2.2.2.2 badRetentionConfig "10x" rfl (by decide)⟩

/-- C7: the command line carries exactly one `--log.level` flag, and its value
is the lowercased configured level when that is allowed, `info` when no level
is configured, and `debug` when the configured value is not allowed. -/
theorem log_level_flag (c : Config) :
    (_cli_args c).filter (hasFlagText "--log.level=") =
      ["--log.level=" ++ cliLogLevel c] ∧
    (optTruthy c.logLevel = false → cliLogLevel c = "info") ∧
    (∀ s, c.logLevel = some s → allowed_log_levels.contains (pyLower s) = true →
      cliLogLevel c = pyLower s) ∧
    (∀ s, c.logLevel = some s → s.isEmpty = false →
      allowed_log_levels.contains (pyLower s) = false → cliLogLevel c = "debug") := by
  refine ⟨?_, ?_, ?_, ?_⟩
  · have hself := hasFlagText_append_self "--log.level=" (cliLogLevel c)
    have h1 : hasFlagText "--log.level=" "--config.file=/etc/prometheus/prometheus.yml"
        = false := by decide
    have h2 : hasFlagText "--log.level=" "--storage.tsdb.path=/var/lib/prometheus"
        = false := by decide
    have h3 : hasFlagText "--log.level=" "--web.enable-lifecycle" = false := by decide
    have h4 : hasFlagText "--log.level="
        "--web.console.templates=/usr/share/prometheus/consoles" = false := by decide
    have h5 : hasFlagText "--log.level="
        "--web.console.libraries=/usr/share/prometheus/console_libraries" = false := by
      decide
    have hwal : hasFlagText "--log.level=" "--storage.tsdb.wal-compression" = false := by
      decide
    unfold _cli_args
    cases hr : c.tsdbRetentionTime with
    | none =>
      cases hw : c.tsdbWalCompression <;>
        simp [List.filter_cons, List.filter_nil, h1, h2, h3, h4, h5, hself, hwal]
    | some v =>
      have hret := hasFlagText_long_ne "--log.level=" "--storage.tsdb.retention.time=" v
        (by decide) (by decide)
      cases hw : c.tsdbWalCompression <;>
        cases hb : (!v.isEmpty && _is_valid_timespec v) <;>
          simp [List.filter_cons, List.filter_nil, h1, h2, h3, h4, h5, hself, hwal,
            hret, hb]
  · intro ht
    cases hl : c.logLevel with
    | none =>
      unfold cliLogLevel
      rw [hl]
      decide
    | some s =>
      rw [hl] at ht
      simp only [optTruthy, Bool.not_eq_false'] at ht
      have hs0 : s = "" := (String.isEmpty_iff s).mp ht
      subst hs0
      unfold cliLogLevel
      rw [hl]
      decide
  · intro s hs hc
    have hm : pyLower s ∈ allowed_log_levels := by simpa using hc
    unfold cliLogLevel
    rw [hs]
    cases he : s.isEmpty with
    | false => simp [optTruthy, he, hm]
    | true =>
      have hs0 : s = "" := (String.isEmpty_iff s).mp he
      subst hs0
      exact absurd hc (by decide)
  · intro s hs he hc
    have hm : pyLower s ∉ allowed_log_levels := by simpa using hc
    unfold cliLogLevel
    rw [hs]
    simp [optTruthy, he, hm]

/-- Witness for C7 at a concrete configuration: a configured `INFO` is
lowercased and emitted as the single `--log.level` flag value. -/
theorem log_level_flag_witness :
    (_cli_args sampleConfig).filter (hasFlagText "--log.level=") =
      ["--log.level=" ++ cliLogLevel sampleConfig] ∧
    cliLogLevel sampleConfig = pyLower "INFO" :=
  ⟨(log_level_flag sampleConfig).1,
   (log_level_flag sampleConfig).2.2.1 "INFO" rfl (by decide)⟩

/-- The push payload of a pass is always the serialized YAML string, never a
type-erroring dict. -/
theorem pushString_prometheus_config (c : Config) (ams : List String) (pr : Bool)
    (jobs : List PyVal) :
    pushString? (_prometheus_config c ams pr jobs) =
      some (yamlDump (prometheusScrapeConfig c ams pr jobs)) := rfl

/-- C2: with the supervisor channel established, running `_configure` twice
with the same options, stored alertmanagers and peer jobs performs at most one
push, one layer add, one stop and one start in total: the first run already
leaves the stored fingerprint equal to the recomputed one and the plan's
services equal to the computed layer's services, so the second run returns the
same state with zero observable effects. -/
theorem configure_idempotent (c : Config) (jobs : List PyVal) (w : World)
    (h : w.pebbleReady = true) :
    ∃ w1 e1, configure c jobs w = some (w1, e1) ∧
      e1.pushes ≤ 1 ∧ e1.layerAdds ≤ 1 ∧ e1.stops ≤ 1 ∧ e1.starts ≤ 1 ∧
      configure c jobs w1 = some (w1, Effects.zero) := by
  by_cases h1 : w.prometheusConfigHash =
      some (md5Hex (pyObjStr (_prometheus_config c w.alertmanagers w.providerReady jobs)))
  · by_cases h2 : w.planServices = some (prometheusService c)
    · refine ⟨w, ⟨0, 0, 0, 0⟩, ?_, by norm_num, by norm_num, by norm_num, by norm_num, ?_⟩
      · unfold configure servicePhase
        simp [h, h1, h2]
      · unfold configure servicePhase
        simp [h, h1, h2, Effects.zero]
    · refine ⟨{ w with planServices := some (prometheusService c), serviceRunning := true },
        ⟨0, 1, if w.serviceRunning then 1 else 0, 1⟩, ?_, by norm_num, by norm_num,
        by cases w.serviceRunning <;> simp, by norm_num, ?_⟩
      · unfold configure servicePhase
        simp [h, h1, h2]
      · unfold configure servicePhase
        simp [h, h1, Effects.zero]
  · by_cases h2 : w.planServices = some (prometheusService c)
    · refine ⟨{ w with prometheusConfigHash := some (md5Hex (pyObjStr (_prometheus_config c w.alertmanagers w.providerReady jobs))) }, ⟨1, 0, 0, 0⟩, ?_, by norm_num, by norm_num, by norm_num, by norm_num, ?_⟩
      · unfold configure servicePhase
        simp [h, h1, h2, pushString_prometheus_config]
      · unfold configure servicePhase
        simp [h, h2, Effects.zero]
    · refine ⟨{ w with prometheusConfigHash := some (md5Hex (pyObjStr (_prometheus_config c w.alertmanagers w.providerReady jobs))), planServices := some (prometheusService c), serviceRunning := true }, ⟨1, 1, if w.serviceRunning then 1 else 0, 1⟩, ?_, by norm_num, by norm_num, by cases w.serviceRunning <;> simp, by norm_num, ?_⟩
      · unfold configure servicePhase
        simp [h, h1, h2, pushString_prometheus_config]
      · unfold configure servicePhase
        simp [h, Effects.zero]

/-- Witness for C2 at a fresh unit with an established supervisor channel. -/
theorem configure_idempotent_witness :
    sampleWorldReady.pebbleReady = true ∧
    ∃ w1 e1, configure sampleConfig [] sampleWorldReady = some (w1, e1) ∧
      e1.pushes ≤ 1 ∧ e1.layerAdds ≤ 1 ∧ e1.stops ≤ 1 ∧ e1.starts ≤ 1 ∧
      configure sampleConfig [] w1 = some (w1, Effects.zero) :=
  ⟨rfl, configure_idempotent sampleConfig [] sampleWorldReady rfl⟩

/-- C3: when the supervisor channel is not established and the configuration
fingerprint differs from the stored one, the pass catches the push's
`ConnectionError` and returns: no exception escapes, the stored fingerprint
and the whole state are unchanged, and no push, layer add, stop or start
happens. -/
theorem configure_connection_error_abort (c : Config) (jobs : List PyVal) (w : World)
    (hready : w.pebbleReady = false)
    (hdiff : w.prometheusConfigHash ≠
      some (md5Hex (pyObjStr (_prometheus_config c w.alertmanagers w.providerReady jobs)))) :
    configure c jobs w = some (w, Effects.zero) := by
  unfold configure
  simp [hready, hdiff]

/-- Witness for C3 at a fresh unit whose supervisor channel is down. -/
theorem configure_connection_error_abort_witness :
    sampleWorldOffline.pebbleReady = false ∧
    sampleWorldOffline.prometheusConfigHash ≠
      some (md5Hex (pyObjStr (_prometheus_config sampleConfig
        sampleWorldOffline.alertmanagers sampleWorldOffline.providerReady []))) ∧
    configure sampleConfig [] sampleWorldOffline = some (sampleWorldOffline, Effects.zero) :=
  ⟨rfl, by simp [sampleWorldOffline, sampleWorldReady],
   configure_connection_error_abort sampleConfig [] sampleWorldOffline rfl
     (by simp [sampleWorldOffline, sampleWorldReady])⟩
